import Mathlib

/-!
Shallow embedding of `pico_sat.h` from the pico_headers repository.

Floating-point scalars are modelled as rationals.  The square-root function
supplied by `pico_math.h` (which is not part of the sources under review) is
kept abstract: every definition that needs it takes a parameter
`sq : ℚ → ℚ` standing for `pm_sqrt`.  Each test routine is embedded twice,
mirroring the two execution paths of the C code: once for a NULL `manifold`
argument (suffix `_b`, returning only the boolean verdict) and once for a
non-NULL manifold (returning the verdict together with the final manifold).
-/

unseal Rat.add Rat.mul Rat.inv Rat.sub

set_option maxRecDepth 8000

/-- Modelled from the spec: `pico_math.h` is not under src/.  A 2D vector of
floating-point scalars (spec section 3, "Vector2"), with rational
coordinates. -/
structure pm_v2 where
  x : ℚ
  y : ℚ
deriving DecidableEq

/-- Modelled from the spec: the zero vector. -/
def pm_v2_zero : pm_v2 := ⟨0, 0⟩

/-- Modelled from the spec: componentwise vector subtraction. -/
def pm_v2_sub (a b : pm_v2) : pm_v2 := ⟨a.x - b.x, a.y - b.y⟩

/-- Modelled from the spec: vector negation. -/
def pm_v2_neg (a : pm_v2) : pm_v2 := ⟨-a.x, -a.y⟩

/-- Modelled from the spec: scaling a vector by a scalar. -/
def pm_v2_scale (a : pm_v2) (c : ℚ) : pm_v2 := ⟨a.x * c, a.y * c⟩

/-- Modelled from the spec: dot product. -/
def pm_v2_dot (a b : pm_v2) : ℚ := a.x * b.x + a.y * b.y

/-- Modelled from the spec: squared length. -/
def pm_v2_len2 (a : pm_v2) : ℚ := a.x * a.x + a.y * a.y

/-- Modelled from the spec (section 4.1): `perp(v) = (v.y, -v.x)`. -/
def pm_v2_perp (a : pm_v2) : pm_v2 := ⟨a.y, -a.x⟩

/-- Modelled from the spec: scalar absolute value (`pm_abs`). -/
def pm_abs (c : ℚ) : ℚ := |c|

/-- Modelled from the spec: normalization divides both components by the
length, which is the square root of the squared length; the square root is an
abstract parameter. -/
def pm_v2_normalize (sq : ℚ → ℚ) (a : pm_v2) : pm_v2 :=
  let len := sq (pm_v2_len2 a)
  ⟨a.x / len, a.y / len⟩

/-- Modelled from the spec: an axis-aligned box (`pm_b2`) given by its
minimum corner and its size. -/
structure pm_b2 where
  pos : pm_v2
  size : pm_v2
deriving DecidableEq

/-- Modelled from the spec: minimum corner of a box. -/
def pm_b2_pos (b : pm_b2) : pm_v2 := b.pos

/-- Modelled from the spec: size of a box. -/
def pm_b2_size (b : pm_b2) : pm_v2 := b.size

/-- FLT_MAX, the largest finite single-precision float,
`(2 - 2^-23) * 2^127 = 2^128 - 2^104`, as an exact rational. -/
def FLT_MAX : ℚ := 2 ^ 128 - 2 ^ 104

/-- A circle shape (`sat_circle_t`). -/
structure sat_circle_t where
  pos : pm_v2
  radius : ℚ
deriving DecidableEq

/-- A polygon shape (`sat_poly_t`): vertex count plus the vertex, face-normal
and edge arrays, modelled as lists. -/
structure sat_poly_t where
  vertex_count : ℕ
  vertices : List pm_v2
  normals : List pm_v2
  edges : List pm_v2
deriving DecidableEq

/-- A collision manifold (`sat_manifold_t`), fields in source order. -/
structure sat_manifold_t where
  normal : pm_v2
  overlap : ℚ
  vector : pm_v2
deriving DecidableEq

/-- Array indexing `a[i]` as used for the in-range accesses of pico_sat.h;
out of range it yields the zero vector. -/
def vget (l : List pm_v2) (i : ℕ) : pm_v2 := (l[i]?).getD pm_v2_zero

/-- The voronoi region classification (`sat_voronoi_region_t`). -/
inductive sat_voronoi_region_t where
  | SAT_VORONOI_LEFT
  | SAT_VORONOI_RIGHT
  | SAT_VORONOI_MIDDLE
deriving DecidableEq

open sat_voronoi_region_t

/-- Embeds `sat_voronoi_region`. -/
def sat_voronoi_region (point line : pm_v2) : sat_voronoi_region_t :=
  let len2 := pm_v2_len2 line
  let dot := pm_v2_dot point line
  if dot < 0 then SAT_VORONOI_LEFT
  else if dot > len2 then SAT_VORONOI_RIGHT
  else SAT_VORONOI_MIDDLE

/-- Embeds `sat_make_circle`. -/
def sat_make_circle (pos : pm_v2) (radius : ℚ) : sat_circle_t := ⟨pos, radius⟩

/-- The `next` index used by `sat_make_poly` and `sat_test_poly_circle`:
`(i + 1) == count ? 0 : i + 1`. -/
def sat_next_idx (count i : ℕ) : ℕ := if i + 1 = count then 0 else i + 1

/-- The `prev` index of `sat_test_poly_circle`, exactly as the source
computes it on C ints: `(i - 1) <= 0 ? count - 1 : i - 1`. -/
def sat_prev_idx (count i : ℕ) : ℕ :=
  if (i : ℤ) - 1 ≤ 0 then count - 1 else i - 1

/-- Embeds `sat_make_poly`; the vertex count is the length of the vertex
list. -/
def sat_make_poly (sq : ℚ → ℚ) (vertices : List pm_v2) : sat_poly_t :=
  let count := vertices.length
  let edges := (List.range count).map (fun i =>
    pm_v2_sub (vget vertices (sat_next_idx count i)) (vget vertices i))
  let normals := edges.map (fun e => pm_v2_normalize sq (pm_v2_perp e))
  ⟨count, vertices, normals, edges⟩

/-- Embeds `sat_aabb_to_poly`. -/
def sat_aabb_to_poly (sq : ℚ → ℚ) (aabb : pm_b2) : sat_poly_t :=
  let pos := pm_b2_pos aabb
  let size := pm_b2_size aabb
  sat_make_poly sq
    [⟨pos.x, pos.y⟩, ⟨pos.x, pos.y + size.y⟩,
     ⟨pos.x + size.x, pos.y + size.y⟩, ⟨pos.x + size.x, pos.y⟩]

/-- Embeds `sat_init_manifold`: the manifold state it writes. -/
def sat_init_manifold : sat_manifold_t := ⟨pm_v2_zero, FLT_MAX, pm_v2_zero⟩

/-- Embeds `sat_update_manifold` as a pure state transformer. -/
def sat_update_manifold (m : sat_manifold_t) (normal : pm_v2) (overlap : ℚ) :
    sat_manifold_t :=
  let abs_overlap := pm_abs overlap
  if abs_overlap < m.overlap then
    let new_normal :=
      if overlap < 0 then pm_v2_neg normal
      else if overlap > 0 then normal
      else m.normal
    ⟨new_normal, abs_overlap, pm_v2_scale new_normal abs_overlap⟩
  else m

/-- Embeds `sat_axis_range`, returning `(range[0], range[1])`.  The C code
starts from `vertices[0]` and scans the rest; with no vertices it would read
junk, modelled here as `(0, 0)`. -/
def sat_axis_range (poly : sat_poly_t) (normal : pm_v2) : ℚ × ℚ :=
  match poly.vertices with
  | [] => (0, 0)
  | v :: vs =>
    let d0 := pm_v2_dot v normal
    vs.foldl (fun r w =>
      let d := pm_v2_dot w normal
      (if d < r.1 then d else r.1, if d > r.2 then d else r.2)) (d0, d0)

/-- Embeds `sat_axis_overlap`. -/
def sat_axis_overlap (poly1 poly2 : sat_poly_t) (axis : pm_v2) : ℚ :=
  let range1 := sat_axis_range poly1 axis
  let range2 := sat_axis_range poly2 axis
  if range1.2 < range2.1 ∨ range2.2 < range1.1 then 0
  else
    let overlap1 := range1.2 - range2.1
    let overlap2 := range2.2 - range1.1
    if overlap2 > overlap1 then overlap1 else -overlap2

/-- Embeds `sat_test_circle_circle` with a NULL manifold argument: only the
verdict is computed. -/
def sat_test_circle_circle_b (circle1 circle2 : sat_circle_t) : Bool :=
  let diff := pm_v2_sub circle2.pos circle1.pos
  let dist2 := pm_v2_len2 diff
  let total_radius := circle1.radius + circle2.radius
  if dist2 ≥ total_radius * total_radius then false else true

/-- Embeds `sat_test_circle_circle` with a non-NULL manifold: returns the
verdict and the manifold left behind. -/
def sat_test_circle_circle (sq : ℚ → ℚ) (circle1 circle2 : sat_circle_t) :
    Bool × sat_manifold_t :=
  let m := sat_init_manifold
  let diff := pm_v2_sub circle2.pos circle1.pos
  let dist2 := pm_v2_len2 diff
  let total_radius := circle1.radius + circle2.radius
  if dist2 ≥ total_radius * total_radius then (false, m)
  else
    let dist := sq dist2
    (true, sat_update_manifold m (pm_v2_normalize sq diff) (total_radius - dist))

/-- First loop of `sat_test_poly_poly` (manifold present).  The accumulation
reads `poly2->normals[i]` for `i < poly1->vertex_count`; since that index can
exceed the initialized prefix of `poly2`'s normals, the fetch is modelled
with an explicit `junk` value for the out-of-range case. -/
def sat_poly_poly_loop1 (junk : pm_v2) (poly1 poly2 : sat_poly_t) :
    List ℕ → sat_manifold_t → Bool × sat_manifold_t
  | [], m => (true, m)
  | i :: rest, m =>
    let overlap := sat_axis_overlap poly1 poly2 (vget poly1.normals i)
    if overlap = 0 then (false, m)
    else sat_poly_poly_loop1 junk poly1 poly2 rest
      (sat_update_manifold m ((poly2.normals[i]?).getD junk) overlap)

/-- Second loop of `sat_test_poly_poly` (manifold present); its accesses to
`poly2->normals[i]` have `i < poly2->vertex_count`. -/
def sat_poly_poly_loop2 (poly1 poly2 : sat_poly_t) :
    List ℕ → sat_manifold_t → Bool × sat_manifold_t
  | [], m => (true, m)
  | i :: rest, m =>
    let overlap := sat_axis_overlap poly2 poly1 (vget poly2.normals i)
    if overlap = 0 then (false, m)
    else sat_poly_poly_loop2 poly1 poly2 rest
      (sat_update_manifold m (vget poly2.normals i) overlap)

/-- Embeds `sat_test_poly_poly` with a non-NULL manifold. -/
def sat_test_poly_poly (junk : pm_v2) (poly1 poly2 : sat_poly_t) :
    Bool × sat_manifold_t :=
  let r1 := sat_poly_poly_loop1 junk poly1 poly2
    (List.range poly1.vertex_count) sat_init_manifold
  if r1.1 then
    sat_poly_poly_loop2 poly1 poly2 (List.range poly2.vertex_count) r1.2
  else (false, r1.2)

/-- First loop of `sat_test_poly_poly` with a NULL manifold. -/
def sat_poly_poly_loop1_b (poly1 poly2 : sat_poly_t) : List ℕ → Bool
  | [] => true
  | i :: rest =>
    if sat_axis_overlap poly1 poly2 (vget poly1.normals i) = 0 then false
    else sat_poly_poly_loop1_b poly1 poly2 rest

/-- Second loop of `sat_test_poly_poly` with a NULL manifold. -/
def sat_poly_poly_loop2_b (poly1 poly2 : sat_poly_t) : List ℕ → Bool
  | [] => true
  | i :: rest =>
    if sat_axis_overlap poly2 poly1 (vget poly2.normals i) = 0 then false
    else sat_poly_poly_loop2_b poly1 poly2 rest

/-- Embeds `sat_test_poly_poly` with a NULL manifold. -/
def sat_test_poly_poly_b (poly1 poly2 : sat_poly_t) : Bool :=
  if sat_poly_poly_loop1_b poly1 poly2 (List.range poly1.vertex_count) then
    sat_poly_poly_loop2_b poly1 poly2 (List.range poly2.vertex_count)
  else false

/-- One iteration of the loop body of `sat_test_poly_circle` with a non-NULL
manifold: `none` models the early `return false`; `some (n, o)` is the
`(normal, overlap)` pair handed to `sat_update_manifold` at the bottom of the
iteration (they start at `(zero, FLT_MAX)` and remain so when neither the
vertex nor the face branch assigns them). -/
def sat_poly_circle_step (sq : ℚ → ℚ) (poly : sat_poly_t)
    (circle : sat_circle_t) (i : ℕ) : Option (pm_v2 × ℚ) :=
  let radius2 := circle.radius * circle.radius
  let count := poly.vertex_count
  let next := sat_next_idx count i
  let prev := sat_prev_idx count i
  let edge := vget poly.edges i
  let point := pm_v2_sub circle.pos (vget poly.vertices i)
  match sat_voronoi_region point edge with
  | SAT_VORONOI_LEFT =>
    let point2 := pm_v2_sub circle.pos (vget poly.vertices prev)
    let edge2 := vget poly.edges prev
    match sat_voronoi_region point2 edge2 with
    | SAT_VORONOI_RIGHT =>
      let diff2 := pm_v2_len2 point
      if diff2 > radius2 then none
      else some (pm_v2_normalize sq point, circle.radius - sq diff2)
    | _ => some (pm_v2_zero, FLT_MAX)
  | SAT_VORONOI_RIGHT =>
    let point2 := pm_v2_sub circle.pos (vget poly.vertices next)
    let edge2 := vget poly.edges next
    match sat_voronoi_region point2 edge2 with
    | SAT_VORONOI_LEFT =>
      let diff2 := pm_v2_len2 point
      if diff2 > radius2 then none
      else some (pm_v2_normalize sq point, circle.radius - sq diff2)
    | _ => some (pm_v2_zero, FLT_MAX)
  | SAT_VORONOI_MIDDLE =>
    let normal := vget poly.normals i
    let diff := pm_v2_dot normal point
    if diff > 0 ∧ pm_abs diff > circle.radius then none
    else some (normal, circle.radius - diff)

/-- The loop of `sat_test_poly_circle` with a non-NULL manifold. -/
def sat_poly_circle_loop (sq : ℚ → ℚ) (poly : sat_poly_t)
    (circle : sat_circle_t) : List ℕ → sat_manifold_t → Bool × sat_manifold_t
  | [], m => (true, m)
  | i :: rest, m =>
    match sat_poly_circle_step sq poly circle i with
    | none => (false, m)
    | some (n, o) =>
      sat_poly_circle_loop sq poly circle rest (sat_update_manifold m n o)

/-- Embeds `sat_test_poly_circle` with a non-NULL manifold. -/
def sat_test_poly_circle (sq : ℚ → ℚ) (poly : sat_poly_t)
    (circle : sat_circle_t) : Bool × sat_manifold_t :=
  sat_poly_circle_loop sq poly circle
    (List.range poly.vertex_count) sat_init_manifold

/-- One iteration of the loop body of `sat_test_poly_circle` with a NULL
manifold: the blocks guarded by `if (manifold)` are skipped, leaving only the
early-exit checks. `false` models the early `return false`. -/
def sat_poly_circle_step_b (poly : sat_poly_t) (circle : sat_circle_t)
    (i : ℕ) : Bool :=
  let radius2 := circle.radius * circle.radius
  let count := poly.vertex_count
  let next := sat_next_idx count i
  let prev := sat_prev_idx count i
  let edge := vget poly.edges i
  let point := pm_v2_sub circle.pos (vget poly.vertices i)
  match sat_voronoi_region point edge with
  | SAT_VORONOI_LEFT =>
    let point2 := pm_v2_sub circle.pos (vget poly.vertices prev)
    let edge2 := vget poly.edges prev
    match sat_voronoi_region point2 edge2 with
    | SAT_VORONOI_RIGHT => if pm_v2_len2 point > radius2 then false else true
    | _ => true
  | SAT_VORONOI_RIGHT =>
    let point2 := pm_v2_sub circle.pos (vget poly.vertices next)
    let edge2 := vget poly.edges next
    match sat_voronoi_region point2 edge2 with
    | SAT_VORONOI_LEFT => if pm_v2_len2 point > radius2 then false else true
    | _ => true
  | SAT_VORONOI_MIDDLE =>
    let diff := pm_v2_dot (vget poly.normals i) point
    if diff > 0 ∧ pm_abs diff > circle.radius then false else true

/-- The loop of `sat_test_poly_circle` with a NULL manifold. -/
def sat_poly_circle_loop_b (poly : sat_poly_t) (circle : sat_circle_t) :
    List ℕ → Bool
  | [] => true
  | i :: rest =>
    if sat_poly_circle_step_b poly circle i then
      sat_poly_circle_loop_b poly circle rest
    else false

/-- Embeds `sat_test_poly_circle` with a NULL manifold. -/
def sat_test_poly_circle_b (poly : sat_poly_t) (circle : sat_circle_t) :
    Bool :=
  sat_poly_circle_loop_b poly circle (List.range poly.vertex_count)

/-- Embeds `sat_test_circle_poly` with a non-NULL manifold: delegate to
`sat_test_poly_circle` with swapped arguments, then negate the manifold's
normal and vector. -/
def sat_test_circle_poly (sq : ℚ → ℚ) (circle : sat_circle_t)
    (poly : sat_poly_t) : Bool × sat_manifold_t :=
  let r := sat_test_poly_circle sq poly circle
  (r.1, ⟨pm_v2_neg r.2.normal, r.2.overlap, pm_v2_neg r.2.vector⟩)

/-- Embeds `sat_test_circle_poly` with a NULL manifold. -/
def sat_test_circle_poly_b (circle : sat_circle_t) (poly : sat_poly_t) :
    Bool :=
  sat_test_poly_circle_b poly circle

/-- Minimum of the absolute overlaps of an update sequence (the quantity the
spec calls the globally minimum absolute overlap); `FLT_MAX` for the empty
sequence. -/
def min_abs_overlap : List (pm_v2 × ℚ) → ℚ
  | [] => FLT_MAX
  | p :: t => t.foldl (fun a q => min a |q.2|) |p.2|

/-- First entry of an update sequence whose absolute overlap equals `u`. -/
def first_min_entry (u : ℚ) : List (pm_v2 × ℚ) → Option (pm_v2 × ℚ)
  | [] => none
  | p :: t => if |p.2| = u then some p else first_min_entry u t

/-- The manifold produced by `sat_init_manifold` followed by one
`sat_update_manifold` call per element of the list. -/
def sat_fold_manifold (l : List (pm_v2 × ℚ)) : sat_manifold_t :=
  l.foldl (fun m p => sat_update_manifold m p.1 p.2) sat_init_manifold

/-- The sequence of `poly2->normals[i]` fetches performed by the manifold
accumulation in the first loop of `sat_test_poly_poly`, with Option-returning
indexing; the list stops at the loop's early `return false`, which happens
before the fetch of its iteration. -/
def sat_poly_poly_loop1_reads (poly1 poly2 : sat_poly_t) :
    List ℕ → List (Option pm_v2)
  | [] => []
  | i :: rest =>
    if sat_axis_overlap poly1 poly2 (vget poly1.normals i) = 0 then []
    else poly2.normals[i]? :: sat_poly_poly_loop1_reads poly1 poly2 rest

/-- Twice the shoelace signed area of a polygon's vertex list, summed over
the cyclic edge pairs. -/
def shoelace2 (l : List pm_v2) : ℚ :=
  ((l.zip (l.rotate 1)).map (fun pq => pq.1.x * pq.2.y - pq.2.x * pq.1.y)).sum

/-- A concrete stand-in for the abstract square root, used to evaluate the
embedding at specific inputs whose verdicts do not depend on the square
root's values. -/
def sq_id : ℚ → ℚ := fun q => q

/-- Unit square with CCW-listed corners, built by `sat_make_poly`. -/
def unit_square : sat_poly_t :=
  sat_make_poly sq_id [⟨0, 0⟩, ⟨1, 0⟩, ⟨1, 1⟩, ⟨0, 1⟩]

/-- The unit square shifted right by one half. -/
def shift_square : sat_poly_t :=
  sat_make_poly sq_id [⟨1/2, 0⟩, ⟨3/2, 0⟩, ⟨3/2, 1⟩, ⟨1/2, 1⟩]

/-- A right triangle overlapping the unit square. -/
def tri_poly : sat_poly_t :=
  sat_make_poly sq_id [⟨0, 0⟩, ⟨2, 0⟩, ⟨0, 2⟩]

/-- A small circle to the left of the unit square. -/
def left_circle : sat_circle_t := ⟨⟨-1, 1/2⟩, 1/4⟩

/-- A circle centred in the unit square. -/
def center_circle : sat_circle_t := ⟨⟨1/2, 1/2⟩, 1⟩

/-! Helper lemmas about `sat_update_manifold` and minimum folds. -/

theorem update_manifold_overlap (m : sat_manifold_t) (n : pm_v2) (o : ℚ) :
    (sat_update_manifold m n o).overlap = min m.overlap |o| := by
  by_cases h : |o| < m.overlap
  · simp [sat_update_manifold, pm_abs, h, min_eq_right h.le]
  · simp [sat_update_manifold, pm_abs, h, min_eq_left (le_of_not_lt h)]

theorem update_manifold_keep (m : sat_manifold_t) (n : pm_v2) (o : ℚ)
    (h : ¬ |o| < m.overlap) : sat_update_manifold m n o = m := by
  simp [sat_update_manifold, pm_abs, h]

theorem update_manifold_normal_lt (m : sat_manifold_t) (n : pm_v2) (o : ℚ)
    (h : |o| < m.overlap) :
    (sat_update_manifold m n o).normal =
      if o < 0 then pm_v2_neg n else if 0 < o then n else m.normal := by
  simp [sat_update_manifold, pm_abs, h]

theorem fold_update_overlap (l : List (pm_v2 × ℚ)) :
    ∀ m : sat_manifold_t,
      (l.foldl (fun m q => sat_update_manifold m q.1 q.2) m).overlap =
        l.foldl (fun a q => min a |q.2|) m.overlap := by
  induction l with
  | nil => intro m; rfl
  | cons p t ih =>
    intro m
    simp only [List.foldl_cons]
    rw [ih, update_manifold_overlap]

theorem foldl_min_init (t : List (pm_v2 × ℚ)) :
    ∀ a b : ℚ, t.foldl (fun x q => min x |q.2|) (min a b) =
      min a (t.foldl (fun x q => min x |q.2|) b) := by
  induction t with
  | nil => intro a b; rfl
  | cons q s ih =>
    intro a b
    simp only [List.foldl_cons]
    rw [min_assoc, ih]

theorem foldl_min_le_init (t : List (pm_v2 × ℚ)) :
    ∀ a : ℚ, t.foldl (fun x q => min x |q.2|) a ≤ a := by
  induction t with
  | nil => intro a; exact le_refl a
  | cons q s ih =>
    intro a
    simp only [List.foldl_cons]
    exact le_trans (ih (min a |q.2|)) (min_le_left _ _)

theorem foldl_min_le_mem (t : List (pm_v2 × ℚ)) :
    ∀ a : ℚ, ∀ r ∈ t, t.foldl (fun x q => min x |q.2|) a ≤ |r.2| := by
  induction t with
  | nil => intro a r hr; exact absurd hr (List.not_mem_nil r)
  | cons q s ih =>
    intro a r hr
    simp only [List.foldl_cons]
    rcases List.mem_cons.mp hr with h | h
    · subst h
      exact le_trans (foldl_min_le_init s (min a |r.2|)) (min_le_right _ _)
    · exact ih (min a |q.2|) r h

theorem min_abs_overlap_cons (p : pm_v2 × ℚ) (t : List (pm_v2 × ℚ))
    (ht : t ≠ []) :
    min_abs_overlap (p :: t) = min |p.2| (min_abs_overlap t) := by
  cases t with
  | nil => exact absurd rfl ht
  | cons q s =>
    simp only [min_abs_overlap, List.foldl_cons]
    exact foldl_min_init s |p.2| |q.2|

theorem min_abs_overlap_le_head (p : pm_v2 × ℚ) (t : List (pm_v2 × ℚ)) :
    min_abs_overlap (p :: t) ≤ |p.2| :=
  foldl_min_le_init t |p.2|

theorem min_abs_overlap_le_mem (p : pm_v2 × ℚ) (t : List (pm_v2 × ℚ))
    (r : pm_v2 × ℚ) (hr : r ∈ t) : min_abs_overlap (p :: t) ≤ |r.2| :=
  foldl_min_le_mem t |p.2| r hr

theorem fold_update_id (l : List (pm_v2 × ℚ)) :
    ∀ m : sat_manifold_t, (∀ q ∈ l, m.overlap ≤ |q.2|) →
      l.foldl (fun m q => sat_update_manifold m q.1 q.2) m = m := by
  induction l with
  | nil => intro m _; rfl
  | cons p t ih =>
    intro m h
    simp only [List.foldl_cons]
    rw [update_manifold_keep m p.1 p.2 (not_lt.mpr (h p (List.mem_cons_self p t)))]
    exact ih m (fun q hq => h q (List.mem_cons_of_mem p hq))

theorem fold_update_normal_first_min (l : List (pm_v2 × ℚ)) :
    ∀ (m : sat_manifold_t) (p : pm_v2 × ℚ),
      min_abs_overlap l < m.overlap → 0 < min_abs_overlap l →
      first_min_entry (min_abs_overlap l) l = some p →
      (l.foldl (fun m q => sat_update_manifold m q.1 q.2) m).normal =
        (if p.2 < 0 then pm_v2_neg p.1 else p.1) := by
  induction l with
  | nil =>
    intro m p _ _ hfm
    simp [first_min_entry] at hfm
  | cons p₀ t ih =>
    intro m p hlt hpos hfm
    by_cases h0 : |p₀.2| = min_abs_overlap (p₀ :: t)
    · have hp : p = p₀ := by
        rw [first_min_entry, if_pos h0] at hfm
        exact (Option.some_inj.mp hfm).symm
      subst hp
      have hrec : |p.2| < m.overlap := by rw [h0]; exact hlt
      have hne : p.2 ≠ 0 := by
        intro hz
        rw [hz, abs_zero] at h0
        rw [← h0] at hpos
        exact lt_irrefl 0 hpos
      simp only [List.foldl_cons]
      have hid : t.foldl (fun m q => sat_update_manifold m q.1 q.2)
          (sat_update_manifold m p.1 p.2) = sat_update_manifold m p.1 p.2 := by
        apply fold_update_id
        intro q hq
        rw [update_manifold_overlap]
        calc min m.overlap |p.2| ≤ |p.2| := min_le_right _ _
          _ = min_abs_overlap (p :: t) := h0
          _ ≤ |q.2| := min_abs_overlap_le_mem p t q hq
      rw [hid, update_manifold_normal_lt m p.1 p.2 hrec]
      rcases lt_trichotomy p.2 0 with h | h | h
      · rw [if_pos h, if_pos h]
      · exact absurd h hne
      · rw [if_neg (not_lt.mpr h.le), if_neg (not_lt.mpr h.le), if_pos h]
    · have hle : min_abs_overlap (p₀ :: t) ≤ |p₀.2| := min_abs_overlap_le_head p₀ t
      have hslt : min_abs_overlap (p₀ :: t) < |p₀.2| :=
        lt_of_le_of_ne hle (fun h => h0 h.symm)
      have ht : t ≠ [] := by
        intro h
        subst h
        exact h0 rfl
      have hcons := min_abs_overlap_cons p₀ t ht
      have hμt : min_abs_overlap (p₀ :: t) = min_abs_overlap t := by
        rcases min_choice |p₀.2| (min_abs_overlap t) with h | h
        · exfalso
          rw [hcons, h] at hslt
          exact lt_irrefl _ hslt
        · rw [hcons, h]
      rw [first_min_entry, if_neg h0, hμt] at hfm
      rw [hμt] at hlt hpos
      simp only [List.foldl_cons]
      apply ih (sat_update_manifold m p₀.1 p₀.2) p ?_ hpos hfm
      rw [update_manifold_overlap]
      apply lt_min hlt
      rw [← hμt]
      exact hslt

/-- C1 counterexample: a single update with candidate normal (1,0) and
signed overlap 0 sets the overlap to 0 (the minimum) but leaves the normal
at the zero vector, which is neither the candidate normal nor its
negation. -/
theorem sat_update_manifold_zero_overlap_cex :
    (sat_fold_manifold [(⟨1, 0⟩, 0)]).overlap = 0 ∧
    (sat_fold_manifold [(⟨1, 0⟩, 0)]).normal ≠ (⟨1, 0⟩ : pm_v2) ∧
    (sat_fold_manifold [(⟨1, 0⟩, 0)]).normal ≠ pm_v2_neg ⟨1, 0⟩ := by
  decide

/-- C1 (amended): after `sat_init_manifold` and a nonempty sequence of
`sat_update_manifold` calls whose minimum absolute overlap is positive and
below FLT_MAX, the manifold's overlap equals the minimum of the absolute
overlaps, and its normal is the candidate normal of the first update
achieving that minimum, negated when that update's signed overlap was
negative.  (As stated the claim fails when the minimal overlap is 0, where
the normal keeps its previous value, and when every overlap magnitude
reaches FLT_MAX, where the sentinel is never replaced.) -/
theorem sat_manifold_min_overlap_claim (l : List (pm_v2 × ℚ))
    (hne : l ≠ []) (hmax : min_abs_overlap l < FLT_MAX)
    (hpos : 0 < min_abs_overlap l) :
    (sat_fold_manifold l).overlap = min_abs_overlap l ∧
    ∀ p : pm_v2 × ℚ, first_min_entry (min_abs_overlap l) l = some p →
      (sat_fold_manifold l).normal = (if p.2 < 0 then pm_v2_neg p.1 else p.1) := by
  constructor
  · cases l with
    | nil => exact absurd rfl hne
    | cons p t =>
      show ((p :: t).foldl (fun m q => sat_update_manifold m q.1 q.2)
        sat_init_manifold).overlap = _
      rw [fold_update_overlap]
      show List.foldl _ FLT_MAX (p :: t) = _
      simp only [List.foldl_cons]
      rw [foldl_min_init t FLT_MAX |p.2|]
      exact min_eq_right (le_of_lt hmax)
  · intro p hfm
    exact fold_update_normal_first_min l sat_init_manifold p hmax hpos hfm

/-- C1 witness: a concrete two-update run where the minimum is achieved by
the second, negative-overlap update. -/
theorem sat_manifold_min_overlap_claim_witness :
    ([(⟨1, 0⟩, 2), (⟨0, 1⟩, -1)] : List (pm_v2 × ℚ)) ≠ [] ∧
    min_abs_overlap [(⟨1, 0⟩, 2), (⟨0, 1⟩, -1)] < FLT_MAX ∧
    0 < min_abs_overlap [(⟨1, 0⟩, 2), (⟨0, 1⟩, -1)] ∧
    (sat_fold_manifold [(⟨1, 0⟩, 2), (⟨0, 1⟩, -1)]).overlap =
      min_abs_overlap [(⟨1, 0⟩, 2), (⟨0, 1⟩, -1)] ∧
    (sat_fold_manifold [(⟨1, 0⟩, 2), (⟨0, 1⟩, -1)]).normal = pm_v2_neg ⟨0, 1⟩ := by
  refine ⟨by decide, by decide, by decide, ?_, ?_⟩
  · exact (sat_manifold_min_overlap_claim [(⟨1, 0⟩, 2), (⟨0, 1⟩, -1)]
      (by decide) (by decide) (by decide)).1
  · have h := (sat_manifold_min_overlap_claim [(⟨1, 0⟩, 2), (⟨0, 1⟩, -1)]
      (by decide) (by decide) (by decide)).2 (⟨0, 1⟩, -1) (by decide)
    rw [h]
    decide

/-- C2: `sat_axis_overlap` returns exactly 0 when the two projection ranges
do not intersect; otherwise it returns overlapA = range1.max - range2.min
when overlapA has the smaller magnitude, and -overlapB with
overlapB = range2.max - range1.min when overlapB ≤ overlapA. -/
theorem sat_axis_overlap_cases_claim (poly1 poly2 : sat_poly_t) (axis : pm_v2) :
    ((sat_axis_range poly1 axis).2 < (sat_axis_range poly2 axis).1 ∨
       (sat_axis_range poly2 axis).2 < (sat_axis_range poly1 axis).1 →
      sat_axis_overlap poly1 poly2 axis = 0) ∧
    (¬((sat_axis_range poly1 axis).2 < (sat_axis_range poly2 axis).1 ∨
        (sat_axis_range poly2 axis).2 < (sat_axis_range poly1 axis).1) →
      (|(sat_axis_range poly1 axis).2 - (sat_axis_range poly2 axis).1| <
          |(sat_axis_range poly2 axis).2 - (sat_axis_range poly1 axis).1| →
        sat_axis_overlap poly1 poly2 axis =
          (sat_axis_range poly1 axis).2 - (sat_axis_range poly2 axis).1) ∧
      ((sat_axis_range poly2 axis).2 - (sat_axis_range poly1 axis).1 ≤
          (sat_axis_range poly1 axis).2 - (sat_axis_range poly2 axis).1 →
        sat_axis_overlap poly1 poly2 axis =
          -((sat_axis_range poly2 axis).2 - (sat_axis_range poly1 axis).1))) := by
  constructor
  · intro h
    simp only [sat_axis_overlap]
    rw [if_pos h]
  · intro hns
    have h := hns
    push_neg at h
    obtain ⟨h1, h2⟩ := h
    have ho1 : (0:ℚ) ≤ (sat_axis_range poly1 axis).2 - (sat_axis_range poly2 axis).1 :=
      sub_nonneg.mpr h1
    have ho2 : (0:ℚ) ≤ (sat_axis_range poly2 axis).2 - (sat_axis_range poly1 axis).1 :=
      sub_nonneg.mpr h2
    constructor
    · intro habs
      have hlt : (sat_axis_range poly1 axis).2 - (sat_axis_range poly2 axis).1 <
          (sat_axis_range poly2 axis).2 - (sat_axis_range poly1 axis).1 := by
        rwa [abs_of_nonneg ho1, abs_of_nonneg ho2] at habs
      simp only [sat_axis_overlap]
      rw [if_neg hns, if_pos hlt]
    · intro hle
      simp only [sat_axis_overlap]
      rw [if_neg hns, if_neg (not_lt.mpr hle)]

/-- C2 witness: the unit square against the square shifted right by one
half, on the x axis: the ranges intersect, overlapA = 1/2 is the smaller,
and it is returned. -/
theorem sat_axis_overlap_cases_claim_witness :
    ¬((sat_axis_range unit_square ⟨1, 0⟩).2 < (sat_axis_range shift_square ⟨1, 0⟩).1 ∨
       (sat_axis_range shift_square ⟨1, 0⟩).2 < (sat_axis_range unit_square ⟨1, 0⟩).1) ∧
    |(sat_axis_range unit_square ⟨1, 0⟩).2 - (sat_axis_range shift_square ⟨1, 0⟩).1| <
      |(sat_axis_range shift_square ⟨1, 0⟩).2 - (sat_axis_range unit_square ⟨1, 0⟩).1| ∧
    sat_axis_overlap unit_square shift_square ⟨1, 0⟩ =
      (sat_axis_range unit_square ⟨1, 0⟩).2 - (sat_axis_range shift_square ⟨1, 0⟩).1 := by
  refine ⟨by decide, by decide, ?_⟩
  exact ((sat_axis_overlap_cases_claim unit_square shift_square ⟨1, 0⟩).2
    (by decide)).1 (by decide)

/-- C3: the `prev` index computed by `sat_test_poly_circle` at i = 1 with a
4-vertex polygon is 3, not the cyclic predecessor 0 = i - 1 that the claim
(and the spec's "computed cyclically") requires: the C condition
`(i - 1) <= 0` is also true at i = 1. -/
theorem sat_prev_idx_noncyclic :
    sat_prev_idx 4 1 = 3 ∧ sat_prev_idx 4 1 ≠ 1 - 1 := by
  decide

/-- C4 counterexample: unit square and a circle at (-1, 1/2): at edge 0 the
voronoi classification is LEFT and the follow-up classification against the
prev edge is MIDDLE (not RIGHT), yet the iteration's candidate is the no-op
pair (zero vector, FLT_MAX) and not the face-normal candidate
(normals[0], radius - normals[0]·point) that the claim predicts. -/
theorem sat_poly_circle_skip_cex :
    sat_voronoi_region (pm_v2_sub left_circle.pos (vget unit_square.vertices 0))
      (vget unit_square.edges 0) = SAT_VORONOI_LEFT ∧
    sat_voronoi_region
      (pm_v2_sub left_circle.pos
        (vget unit_square.vertices (sat_prev_idx unit_square.vertex_count 0)))
      (vget unit_square.edges (sat_prev_idx unit_square.vertex_count 0)) ≠
      SAT_VORONOI_RIGHT ∧
    sat_poly_circle_step sq_id unit_square left_circle 0 =
      some (pm_v2_zero, FLT_MAX) ∧
    sat_poly_circle_step sq_id unit_square left_circle 0 ≠
      some (vget unit_square.normals 0,
        left_circle.radius - pm_v2_dot (vget unit_square.normals 0)
          (pm_v2_sub left_circle.pos (vget unit_square.vertices 0))) := by
  refine ⟨by decide, by decide, by decide, by decide⟩

/-- C4 (amended): when the LEFT classification's follow-up check against the
prev edge is not RIGHT (and symmetrically when RIGHT's follow-up against the
next edge is not LEFT), the iteration does not fall through to the
MIDDLE/face-normal branch: it contributes the untouched candidate pair
(zero vector, FLT_MAX), never returns false at that edge, and the ensuing
manifold update is a no-op for any manifold whose overlap is at most
FLT_MAX. -/
theorem sat_poly_circle_skip_claim (sq : ℚ → ℚ) (poly : sat_poly_t)
    (circle : sat_circle_t) (i : ℕ)
    (h : (sat_voronoi_region (pm_v2_sub circle.pos (vget poly.vertices i))
            (vget poly.edges i) = SAT_VORONOI_LEFT ∧
          sat_voronoi_region
            (pm_v2_sub circle.pos
              (vget poly.vertices (sat_prev_idx poly.vertex_count i)))
            (vget poly.edges (sat_prev_idx poly.vertex_count i)) ≠
            SAT_VORONOI_RIGHT) ∨
         (sat_voronoi_region (pm_v2_sub circle.pos (vget poly.vertices i))
            (vget poly.edges i) = SAT_VORONOI_RIGHT ∧
          sat_voronoi_region
            (pm_v2_sub circle.pos
              (vget poly.vertices (sat_next_idx poly.vertex_count i)))
            (vget poly.edges (sat_next_idx poly.vertex_count i)) ≠
            SAT_VORONOI_LEFT)) :
    sat_poly_circle_step sq poly circle i = some (pm_v2_zero, FLT_MAX) ∧
    ∀ m : sat_manifold_t, m.overlap ≤ FLT_MAX →
      sat_update_manifold m pm_v2_zero FLT_MAX = m := by
  constructor
  · rcases h with ⟨h1, h2⟩ | ⟨h1, h2⟩
    · cases hr : sat_voronoi_region
          (pm_v2_sub circle.pos
            (vget poly.vertices (sat_prev_idx poly.vertex_count i)))
          (vget poly.edges (sat_prev_idx poly.vertex_count i)) with
      | SAT_VORONOI_RIGHT => exact absurd hr h2
      | SAT_VORONOI_LEFT => simp [sat_poly_circle_step, h1, hr]
      | SAT_VORONOI_MIDDLE => simp [sat_poly_circle_step, h1, hr]
    · cases hr : sat_voronoi_region
          (pm_v2_sub circle.pos
            (vget poly.vertices (sat_next_idx poly.vertex_count i)))
          (vget poly.edges (sat_next_idx poly.vertex_count i)) with
      | SAT_VORONOI_LEFT => exact absurd hr h2
      | SAT_VORONOI_RIGHT => simp [sat_poly_circle_step, h1, hr]
      | SAT_VORONOI_MIDDLE => simp [sat_poly_circle_step, h1, hr]
  · intro m hm
    apply update_manifold_keep
    rw [abs_of_nonneg (by norm_num [FLT_MAX] : (0:ℚ) ≤ FLT_MAX)]
    exact not_lt.mpr hm

/-- C4 witness: the counterexample configuration discharges the amended
claim's hypothesis through its LEFT disjunct. -/
theorem sat_poly_circle_skip_claim_witness :
    (sat_voronoi_region (pm_v2_sub left_circle.pos (vget unit_square.vertices 0))
        (vget unit_square.edges 0) = SAT_VORONOI_LEFT ∧
      sat_voronoi_region
        (pm_v2_sub left_circle.pos
          (vget unit_square.vertices (sat_prev_idx unit_square.vertex_count 0)))
        (vget unit_square.edges (sat_prev_idx unit_square.vertex_count 0)) ≠
        SAT_VORONOI_RIGHT) ∧
    sat_poly_circle_step sq_id unit_square left_circle 0 =
      some (pm_v2_zero, FLT_MAX) := by
  refine ⟨⟨by decide, by decide⟩, ?_⟩
  exact (sat_poly_circle_skip_claim sq_id unit_square left_circle 0
    (Or.inl ⟨by decide, by decide⟩)).1

/-- C5: `sat_test_circle_circle` answers false exactly when the squared
centre distance is at least the squared radius sum; in particular exact
tangency yields false. -/
theorem sat_test_circle_circle_boundary_claim (sq : ℚ → ℚ)
    (circle1 circle2 : sat_circle_t) :
    ((sat_test_circle_circle sq circle1 circle2).1 = false ↔
      (circle1.radius + circle2.radius) * (circle1.radius + circle2.radius) ≤
        pm_v2_len2 (pm_v2_sub circle2.pos circle1.pos)) ∧
    (pm_v2_len2 (pm_v2_sub circle2.pos circle1.pos) =
        (circle1.radius + circle2.radius) * (circle1.radius + circle2.radius) →
      (sat_test_circle_circle sq circle1 circle2).1 = false) := by
  have hfst : ∀ h : (circle1.radius + circle2.radius) *
        (circle1.radius + circle2.radius) ≤
        pm_v2_len2 (pm_v2_sub circle2.pos circle1.pos),
      (sat_test_circle_circle sq circle1 circle2).1 = false := by
    intro h
    simp only [sat_test_circle_circle]
    rw [if_pos h]
  constructor
  · constructor
    · intro hf
      by_contra hlt
      have : (sat_test_circle_circle sq circle1 circle2).1 = true := by
        simp only [sat_test_circle_circle]
        rw [if_neg hlt]
      rw [hf] at this
      exact Bool.false_ne_true this
    · exact hfst
  · intro h
    exact hfst (le_of_eq h.symm)

/-- C5 witness: tangent circles of radii 1 and 2 with centre distance 3. -/
theorem sat_test_circle_circle_boundary_claim_witness :
    pm_v2_len2 (pm_v2_sub (⟨⟨3, 0⟩, 2⟩ : sat_circle_t).pos
        (⟨⟨0, 0⟩, 1⟩ : sat_circle_t).pos) =
      ((⟨⟨0, 0⟩, 1⟩ : sat_circle_t).radius + (⟨⟨3, 0⟩, 2⟩ : sat_circle_t).radius) *
        ((⟨⟨0, 0⟩, 1⟩ : sat_circle_t).radius + (⟨⟨3, 0⟩, 2⟩ : sat_circle_t).radius) ∧
    (sat_test_circle_circle sq_id ⟨⟨0, 0⟩, 1⟩ ⟨⟨3, 0⟩, 2⟩).1 = false :=
  ⟨by decide,
   (sat_test_circle_circle_boundary_claim sq_id ⟨⟨0, 0⟩, 1⟩ ⟨⟨3, 0⟩, 2⟩).2 (by decide)⟩

/-- C6: `sat_test_circle_poly` returns the same boolean as
`sat_test_poly_circle` with swapped arguments, and on success the manifold
normals and vectors are exact negations of each other while the overlap
magnitudes agree. -/
theorem sat_test_circle_poly_duality_claim (sq : ℚ → ℚ)
    (circle : sat_circle_t) (poly : sat_poly_t) :
    (sat_test_circle_poly sq circle poly).1 =
      (sat_test_poly_circle sq poly circle).1 ∧
    ((sat_test_circle_poly sq circle poly).1 = true →
     (sat_test_poly_circle sq poly circle).1 = true →
      (sat_test_circle_poly sq circle poly).2.normal =
        pm_v2_neg (sat_test_poly_circle sq poly circle).2.normal ∧
      (sat_test_circle_poly sq circle poly).2.vector =
        pm_v2_neg (sat_test_poly_circle sq poly circle).2.vector ∧
      |(sat_test_circle_poly sq circle poly).2.overlap| =
        |(sat_test_poly_circle sq poly circle).2.overlap|) :=
  ⟨rfl, fun _ _ => ⟨rfl, rfl, rfl⟩⟩

/-- C6 witness: a circle centred in the unit square collides both ways and
the rebuilt manifold normal is the exact negation. -/
theorem sat_test_circle_poly_duality_claim_witness :
    (sat_test_circle_poly sq_id center_circle unit_square).1 = true ∧
    (sat_test_poly_circle sq_id unit_square center_circle).1 = true ∧
    (sat_test_circle_poly sq_id center_circle unit_square).2.normal =
      pm_v2_neg (sat_test_poly_circle sq_id unit_square center_circle).2.normal :=
  ⟨by decide, by decide,
   ((sat_test_circle_poly_duality_claim sq_id center_circle unit_square).2
     (by decide) (by decide)).1⟩

/-- C7 counterexample: the initialized overlap sentinel is FLT_MAX, a finite
value: the strictly larger value FLT_MAX + 1 is not bounded by it, so the
sentinel is not positive infinity. -/
theorem sat_init_manifold_not_infinite_cex :
    sat_init_manifold.overlap = FLT_MAX ∧
    ¬ (FLT_MAX + 1 ≤ sat_init_manifold.overlap) := by
  refine ⟨rfl, ?_⟩
  simp only [sat_init_manifold]
  norm_num [FLT_MAX]

/-- C7 (amended): `sat_init_manifold` sets the overlap to FLT_MAX (the
largest finite single-precision float, not positive infinity), the normal to
the zero vector and the vector to the zero vector. -/
theorem sat_init_manifold_fltmax_claim :
    sat_init_manifold.overlap = FLT_MAX ∧
    sat_init_manifold.normal = pm_v2_zero ∧
    sat_init_manifold.vector = pm_v2_zero :=
  ⟨rfl, rfl, rfl⟩

/-- C8 counterexample: the unit box yields shoelace sum -2 < 0, refuting the
claimed positive (counter-clockwise) shoelace signed area. -/
theorem sat_aabb_to_poly_winding_cex :
    shoelace2 (sat_aabb_to_poly sq_id ⟨⟨0, 0⟩, ⟨1, 1⟩⟩).vertices = -2 ∧
    ¬ (0 < shoelace2 (sat_aabb_to_poly sq_id ⟨⟨0, 0⟩, ⟨1, 1⟩⟩).vertices) := by
  refine ⟨by decide, by decide⟩

/-- C8 (amended): `sat_aabb_to_poly` produces a 4-vertex polygon starting at
the minimum corner and listing exactly the box's four corners, but its
shoelace sum is -2·w·h: non-positive for non-negative sizes, i.e. clockwise
under the standard y-up orientation (counter-clockwise only in the y-down
screen convention), not the claimed positive signed area. -/
theorem sat_aabb_to_poly_claim (sq : ℚ → ℚ) (aabb : pm_b2) :
    (sat_aabb_to_poly sq aabb).vertices =
      [⟨(pm_b2_pos aabb).x, (pm_b2_pos aabb).y⟩,
       ⟨(pm_b2_pos aabb).x, (pm_b2_pos aabb).y + (pm_b2_size aabb).y⟩,
       ⟨(pm_b2_pos aabb).x + (pm_b2_size aabb).x,
         (pm_b2_pos aabb).y + (pm_b2_size aabb).y⟩,
       ⟨(pm_b2_pos aabb).x + (pm_b2_size aabb).x, (pm_b2_pos aabb).y⟩] ∧
    shoelace2 (sat_aabb_to_poly sq aabb).vertices =
      -(2 * ((pm_b2_size aabb).x * (pm_b2_size aabb).y)) ∧
    (0 ≤ (pm_b2_size aabb).x → 0 ≤ (pm_b2_size aabb).y →
      shoelace2 (sat_aabb_to_poly sq aabb).vertices ≤ 0) := by
  have hv : (sat_aabb_to_poly sq aabb).vertices =
      [⟨(pm_b2_pos aabb).x, (pm_b2_pos aabb).y⟩,
       ⟨(pm_b2_pos aabb).x, (pm_b2_pos aabb).y + (pm_b2_size aabb).y⟩,
       ⟨(pm_b2_pos aabb).x + (pm_b2_size aabb).x,
         (pm_b2_pos aabb).y + (pm_b2_size aabb).y⟩,
       ⟨(pm_b2_pos aabb).x + (pm_b2_size aabb).x, (pm_b2_pos aabb).y⟩] := rfl
  have hs : shoelace2 (sat_aabb_to_poly sq aabb).vertices =
      -(2 * ((pm_b2_size aabb).x * (pm_b2_size aabb).y)) := by
    rw [hv]
    simp [shoelace2, List.rotate]
    ring
  refine ⟨hv, hs, ?_⟩
  intro hx hy
  rw [hs]
  have h := mul_nonneg hx hy
  linarith

/-- C8 witness: the unit box has non-negative sizes and non-positive
shoelace sum. -/
theorem sat_aabb_to_poly_claim_witness :
    (0:ℚ) ≤ (pm_b2_size ⟨⟨0, 0⟩, ⟨1, 1⟩⟩).x ∧
    (0:ℚ) ≤ (pm_b2_size ⟨⟨0, 0⟩, ⟨1, 1⟩⟩).y ∧
    shoelace2 (sat_aabb_to_poly sq_id ⟨⟨0, 0⟩, ⟨1, 1⟩⟩).vertices ≤ 0 :=
  ⟨by decide, by decide,
   (sat_aabb_to_poly_claim sq_id ⟨⟨0, 0⟩, ⟨1, 1⟩⟩).2.2 (by decide) (by decide)⟩

/-! Helper lemmas relating the NULL-manifold and manifold execution paths. -/

theorem sat_poly_circle_step_b_isSome (sq : ℚ → ℚ) (poly : sat_poly_t)
    (circle : sat_circle_t) (i : ℕ) :
    sat_poly_circle_step_b poly circle i =
      (sat_poly_circle_step sq poly circle i).isSome := by
  simp only [sat_poly_circle_step_b, sat_poly_circle_step]
  cases sat_voronoi_region (pm_v2_sub circle.pos (vget poly.vertices i))
      (vget poly.edges i) with
  | SAT_VORONOI_LEFT =>
    cases sat_voronoi_region
        (pm_v2_sub circle.pos
          (vget poly.vertices (sat_prev_idx poly.vertex_count i)))
        (vget poly.edges (sat_prev_idx poly.vertex_count i)) with
    | SAT_VORONOI_LEFT => rfl
    | SAT_VORONOI_MIDDLE => rfl
    | SAT_VORONOI_RIGHT =>
      by_cases h : pm_v2_len2 (pm_v2_sub circle.pos (vget poly.vertices i)) >
          circle.radius * circle.radius
      · simp [h]
      · simp [h]
  | SAT_VORONOI_RIGHT =>
    cases sat_voronoi_region
        (pm_v2_sub circle.pos
          (vget poly.vertices (sat_next_idx poly.vertex_count i)))
        (vget poly.edges (sat_next_idx poly.vertex_count i)) with
    | SAT_VORONOI_RIGHT => rfl
    | SAT_VORONOI_MIDDLE => rfl
    | SAT_VORONOI_LEFT =>
      by_cases h : pm_v2_len2 (pm_v2_sub circle.pos (vget poly.vertices i)) >
          circle.radius * circle.radius
      · simp [h]
      · simp [h]
  | SAT_VORONOI_MIDDLE =>
    by_cases h : pm_v2_dot (vget poly.normals i)
          (pm_v2_sub circle.pos (vget poly.vertices i)) > 0 ∧
        pm_abs (pm_v2_dot (vget poly.normals i)
          (pm_v2_sub circle.pos (vget poly.vertices i))) > circle.radius
    · simp [h]
    · simp [h]

theorem sat_poly_circle_loop_b_fst (sq : ℚ → ℚ) (poly : sat_poly_t)
    (circle : sat_circle_t) (idxs : List ℕ) :
    ∀ m : sat_manifold_t,
      sat_poly_circle_loop_b poly circle idxs =
        (sat_poly_circle_loop sq poly circle idxs m).1 := by
  induction idxs with
  | nil => intro m; rfl
  | cons i rest ih =>
    intro m
    simp only [sat_poly_circle_loop_b, sat_poly_circle_loop]
    rw [sat_poly_circle_step_b_isSome sq poly circle i]
    cases hs : sat_poly_circle_step sq poly circle i with
    | none => rfl
    | some p =>
      obtain ⟨n, o⟩ := p
      simp only [Option.isSome_some, if_true]
      exact ih (sat_update_manifold m n o)

theorem sat_poly_poly_loop1_b_fst (junk : pm_v2) (poly1 poly2 : sat_poly_t)
    (idxs : List ℕ) :
    ∀ m : sat_manifold_t,
      sat_poly_poly_loop1_b poly1 poly2 idxs =
        (sat_poly_poly_loop1 junk poly1 poly2 idxs m).1 := by
  induction idxs with
  | nil => intro m; rfl
  | cons i rest ih =>
    intro m
    simp only [sat_poly_poly_loop1_b, sat_poly_poly_loop1]
    by_cases h : sat_axis_overlap poly1 poly2 (vget poly1.normals i) = 0
    · rw [if_pos h, if_pos h]
    · rw [if_neg h, if_neg h]
      exact ih _

theorem sat_poly_poly_loop2_b_fst (poly1 poly2 : sat_poly_t) (idxs : List ℕ) :
    ∀ m : sat_manifold_t,
      sat_poly_poly_loop2_b poly1 poly2 idxs =
        (sat_poly_poly_loop2 poly1 poly2 idxs m).1 := by
  induction idxs with
  | nil => intro m; rfl
  | cons i rest ih =>
    intro m
    simp only [sat_poly_poly_loop2_b, sat_poly_poly_loop2]
    by_cases h : sat_axis_overlap poly2 poly1 (vget poly2.normals i) = 0
    · rw [if_pos h, if_pos h]
    · rw [if_neg h, if_neg h]
      exact ih _

/-- C9: each of the four test routines returns the same boolean verdict on
the NULL-manifold path as on the manifold path over the same shapes; the
manifold argument never influences the collision decision. -/
theorem sat_null_manifold_verdict_claim (sq : ℚ → ℚ) (junk : pm_v2)
    (poly1 poly2 poly : sat_poly_t) (circle circle1 circle2 : sat_circle_t) :
    sat_test_poly_poly_b poly1 poly2 = (sat_test_poly_poly junk poly1 poly2).1 ∧
    sat_test_poly_circle_b poly circle = (sat_test_poly_circle sq poly circle).1 ∧
    sat_test_circle_poly_b circle poly = (sat_test_circle_poly sq circle poly).1 ∧
    sat_test_circle_circle_b circle1 circle2 =
      (sat_test_circle_circle sq circle1 circle2).1 := by
  refine ⟨?_, ?_, ?_, ?_⟩
  · simp only [sat_test_poly_poly_b, sat_test_poly_poly]
    rw [← sat_poly_poly_loop1_b_fst junk poly1 poly2
      (List.range poly1.vertex_count) sat_init_manifold]
    cases h : sat_poly_poly_loop1_b poly1 poly2 (List.range poly1.vertex_count) with
    | false => simp
    | true =>
      simp only [if_true]
      exact sat_poly_poly_loop2_b_fst poly1 poly2 (List.range poly2.vertex_count) _
  · exact sat_poly_circle_loop_b_fst sq poly circle
      (List.range poly.vertex_count) sat_init_manifold
  · exact sat_poly_circle_loop_b_fst sq poly circle
      (List.range poly.vertex_count) sat_init_manifold
  · simp only [sat_test_circle_circle_b, sat_test_circle_circle]
    by_cases h : pm_v2_len2 (pm_v2_sub circle2.pos circle1.pos) ≥
        (circle1.radius + circle2.radius) * (circle1.radius + circle2.radius)
    · rw [if_pos h, if_pos h]
    · rw [if_neg h, if_neg h]

/-- Helper for C10: with no early exit among the given indices, the first
loop's accumulation fetches `poly2.normals[i]?` for exactly those indices. -/
theorem sat_poly_poly_loop1_reads_map (poly1 poly2 : sat_poly_t) :
    ∀ idxs : List ℕ,
      (∀ i ∈ idxs, sat_axis_overlap poly1 poly2 (vget poly1.normals i) ≠ 0) →
      sat_poly_poly_loop1_reads poly1 poly2 idxs =
        idxs.map (fun i => poly2.normals[i]?) := by
  intro idxs
  induction idxs with
  | nil => intro _; rfl
  | cons i rest ih =>
    intro h
    simp only [sat_poly_poly_loop1_reads, List.map_cons]
    rw [if_neg (h i (List.mem_cons_self i rest))]
    rw [ih (fun j hj => h j (List.mem_cons_of_mem i hj))]

/-- C10: in the first loop of `sat_test_poly_poly`, the manifold
accumulation reads `poly2->normals[i]` for every i below
`poly1->vertex_count`; when poly1 has more vertices than poly2 and the loop
runs to completion, some index is at least `poly2->vertex_count`, outside the
prefix of the normals array initialized by `sat_make_poly`, so the
Option-returning fetch yields `none`. -/
theorem sat_poly_poly_normals_oob_claim (poly1 poly2 : sat_poly_t)
    (hlen : poly2.normals.length = poly2.vertex_count)
    (hcount : poly2.vertex_count < poly1.vertex_count)
    (hloop : ∀ i < poly1.vertex_count,
      sat_axis_overlap poly1 poly2 (vget poly1.normals i) ≠ 0) :
    sat_poly_poly_loop1_reads poly1 poly2 (List.range poly1.vertex_count) =
      (List.range poly1.vertex_count).map (fun i => poly2.normals[i]?) ∧
    none ∈ sat_poly_poly_loop1_reads poly1 poly2
      (List.range poly1.vertex_count) := by
  have hmap := sat_poly_poly_loop1_reads_map poly1 poly2
    (List.range poly1.vertex_count)
    (fun i hi => hloop i (List.mem_range.mp hi))
  refine ⟨hmap, ?_⟩
  rw [hmap]
  apply List.mem_map.mpr
  refine ⟨poly2.vertex_count, List.mem_range.mpr hcount, ?_⟩
  apply List.getElem?_eq_none
  rw [hlen]

/-- C10 witness: the unit square (4 vertices) against an overlapping
triangle (3 vertices): no axis exits early, and the fourth fetch of the
triangle's normals is out of range. -/
theorem sat_poly_poly_normals_oob_claim_witness :
    tri_poly.normals.length = tri_poly.vertex_count ∧
    tri_poly.vertex_count < unit_square.vertex_count ∧
    (∀ i < unit_square.vertex_count,
      sat_axis_overlap unit_square tri_poly (vget unit_square.normals i) ≠ 0) ∧
    none ∈ sat_poly_poly_loop1_reads unit_square tri_poly
      (List.range unit_square.vertex_count) := by
  refine ⟨by decide, by decide, by decide, ?_⟩
  exact (sat_poly_poly_normals_oob_claim unit_square tri_poly
    (by decide) (by decide) (by decide)).2
